import Mathlib

/-!
Verification development for the MTA Bus Time home-assistant integration.

The repository has two variants of the same fetch-normalize-display pipeline:
`sensor.py` (single-target `MTABusSensor`) and
`custom_components/mta_bus_time/sensor.py` (multi-target `MTAData` /
`MTABusStopSensor`).  This file shallowly embeds the response-normalization
and ETA-derivation pipeline of both variants and proves the specification
claims about them.

Modelling conventions:
* Decoded JSON values (Python objects) are modelled by `PyVal`; a Python
  `dict.get(key, default)` is `PyVal.getD`, which raises (`Except.error ()`)
  when the receiver is not a dict, mirroring Python's `AttributeError`.
* `datetime` objects are modelled by `DateTime` (calendar fields plus an
  optional UTC-offset in minutes); subtraction goes through the standard
  civil-from-days epoch computation.  Sub-second precision is not modelled.
* The ISO-8601 timestamp parsers (`datetime.fromisoformat` /
  `dateutil.parser.parse`) are abstracted as a function parameter
  `p : String → Option DateTime` (`Option.none` models a raised parse error).
* `strftime`/`strptime` with the fixed pattern "%B %d, %Y at %I:%M %p" are
  modelled concretely (`strftimeFmt` / `strptimeFmt`).
-/

namespace MTABus

/-- A decoded JSON / Python value. -/
inductive PyVal where
  | none
  | bool (b : Bool)
  | int (n : Int)
  | str (s : String)
  | list (l : List PyVal)
  | dict (l : List (String × PyVal))

/-- Python truthiness of a value (`if v:`). -/
def PyVal.truthy : PyVal → Bool
  | .none => false
  | .bool b => b
  | .int n => n != 0
  | .str s => s != ("")
  | .list l => !l.isEmpty
  | .dict l => !l.isEmpty

/-- Raised-exception-or-value result, modelling a Python expression that can
throw (the error payload is irrelevant, only control flow matters). -/
abbrev Exc (α : Type) : Type := Except Unit α

/-- Python `v.get(k, d)`: returns the value bound to `k` (or `d` when absent)
when `v` is a dict, and raises (`AttributeError`) otherwise. -/
def PyVal.getD (v : PyVal) (k : String) (d : PyVal) : Exc PyVal :=
  match v with
  | .dict l => .ok ((l.lookup k).getD d)
  | _ => .error ()

/-- Key lookup inside an already-built dict value (used to state properties
about produced arrival records). -/
def dictLookup (v : PyVal) (k : String) : Option PyVal :=
  match v with
  | .dict l => l.lookup k
  | _ => Option.none

/-- Python `v != "t"` where `t` is a string literal: string comparison when
`v` is a string, always true otherwise (values of different types compare
unequal). -/
def pyNeStr (v : PyVal) (t : String) : Bool :=
  match v with
  | .str s => s != t
  | _ => true

/-- A Python `datetime`: calendar fields plus an optional fixed UTC offset in
minutes (`Option.none` models a naive datetime). -/
structure DateTime where
  year : Nat
  month : Nat
  day : Nat
  hour : Nat
  minute : Nat
  second : Nat
  offsetMin : Option Int
deriving DecidableEq

/-- Days since 1970-01-01 of a civil date (standard days-from-civil
computation, as used by Python's date arithmetic). -/
def daysFromCivil (y m d : Int) : Int :=
  let y2 := if m ≤ 2 then y - 1 else y
  let era := Int.fdiv y2 400
  let yoe := y2 - era * 400
  let doy := Int.fdiv (153 * (if 2 < m then m - 3 else m + 9) + 2) 5 + d - 1
  let doe := yoe * 365 + Int.fdiv yoe 4 - Int.fdiv yoe 100 + doy
  era * 146097 + doe - 719468

/-- Wall-clock seconds of a `DateTime` since the epoch, ignoring its offset. -/
def DateTime.wallSec (dt : DateTime) : Int :=
  daysFromCivil dt.year dt.month dt.day * 86400
    + dt.hour * 3600 + dt.minute * 60 + dt.second

/-- Absolute seconds since the epoch (wall clock minus UTC offset); a naive
datetime is taken at face value. -/
def DateTime.absSec (dt : DateTime) : Int :=
  dt.wallSec - (dt.offsetMin.getD 0) * 60

/-- Python `a - b` on two datetimes of equal awareness, in whole seconds
(`delta.total_seconds()`). -/
def pythonSub (a b : DateTime) : Int :=
  a.absSec - b.absSec

/-! ### The "%B %d, %Y at %I:%M %p" format -/

/-- The decimal digit characters. -/
def digitChar : Nat → Char
  | 0 => '0' | 1 => '1' | 2 => '2' | 3 => '3' | 4 => '4'
  | 5 => '5' | 6 => '6' | 7 => '7' | 8 => '8' | _ => '9'

/-- Numeric value of a digit character. -/
def digitVal (c : Char) : Nat := c.toNat - 48

/-- Whether a character is a decimal digit. -/
def isDigitCh (c : Char) : Bool := 48 ≤ c.toNat && c.toNat ≤ 57

/-- Decimal numeral accumulator with explicit fuel (enough fuel always
remains, see `printNatChars`). -/
def printNatAux : Nat → Nat → List Char
  | 0, _ => []
  | fuel + 1, n => if n = 0 then [] else printNatAux fuel (n / 10) ++ [digitChar (n % 10)]

/-- Unpadded decimal numeral of `n` (empty for 0), as `str(n)` / `%Y` print a
positive number. -/
def printNatChars (n : Nat) : List Char :=
  printNatAux n n

/-- Two-digit zero-padded numeral, as `%d`, `%I` and `%M` print values below
100. -/
def pad2Chars (n : Nat) : List Char :=
  if n < 10 then ['0', digitChar n] else printNatChars n

/-- The locale-invariant English month names produced by `%B`. -/
def monthNamesChars : List (List Char) :=
  [ ['J','a','n','u','a','r','y'],
    ['F','e','b','r','u','a','r','y'],
    ['M','a','r','c','h'],
    ['A','p','r','i','l'],
    ['M','a','y'],
    ['J','u','n','e'],
    ['J','u','l','y'],
    ['A','u','g','u','s','t'],
    ['S','e','p','t','e','m','b','e','r'],
    ['O','c','t','o','b','e','r'],
    ['N','o','v','e','m','b','e','r'],
    ['D','e','c','e','m','b','e','r'] ]

/-- 12-hour clock hour shown by `%I`. -/
def hourTo12 (h : Nat) : Nat :=
  if h % 12 = 0 then 12 else h % 12

/-- The `%p` field. -/
def ampmChars (h : Nat) : List Char :=
  if h < 12 then ['A', 'M'] else ['P', 'M']

/-- Characters of `dt.strftime("%B %d, %Y at %I:%M %p")`. -/
def strftimeChars (dt : DateTime) : List Char :=
  (monthNamesChars.getD (dt.month - 1) []) ++ [' ']
    ++ pad2Chars dt.day ++ [',', ' ']
    ++ printNatChars dt.year ++ [' ', 'a', 't', ' ']
    ++ pad2Chars (hourTo12 dt.hour) ++ [':']
    ++ pad2Chars dt.minute ++ [' ']
    ++ ampmChars dt.hour

/-- `dt.strftime("%B %d, %Y at %I:%M %p")`. -/
def strftimeFmt (dt : DateTime) : String :=
  String.mk (strftimeChars dt)

/-- Greedy split of a leading run of digit characters. -/
def splitDigits (l : List Char) : List Char × List Char :=
  (l.takeWhile isDigitCh, l.dropWhile isDigitCh)

/-- Decimal decoding of a digit string (most significant first). -/
def decodeDigits (l : List Char) : Nat :=
  l.foldl (fun a c => a * 10 + digitVal c) 0

/-- Consume an expected literal piece of the format. -/
def expectLit (p : List Char) (l : List Char) : Option (List Char) :=
  if p.isPrefixOf l then some (l.drop p.length) else Option.none

/-- Whether a character list does not start with a digit (used to delimit the
greedy digit runs when stating parsing facts). -/
def headNonDigit (l : List Char) : Bool :=
  match l with
  | [] => true
  | c :: _ => !isDigitCh c

/-- Consume a nonempty run of digits and decode it. -/
def parseNum (l : List Char) : Option (Nat × List Char) :=
  let (ds, rest) := splitDigits l
  if ds.isEmpty then Option.none else some (decodeDigits ds, rest)

/-- Try the month names in order (as the `%B` alternation does), yielding the
1-based month number. -/
def parseMonthAux : Nat → List (List Char) → List Char → Option (Nat × List Char)
  | _, [], _ => Option.none
  | i, nm :: rest, l =>
    if nm.isPrefixOf l then some (i, l.drop nm.length)
    else parseMonthAux (i + 1) rest l

/-- Parse the `%B` field. -/
def parseMonth (l : List Char) : Option (Nat × List Char) :=
  parseMonthAux 1 monthNamesChars l

/-- `datetime.strptime(s, "%B %d, %Y at %I:%M %p")`: parses the fixed format
back into a naive `DateTime` (seconds zero, no offset), or fails. -/
def strptimeFmt (s : String) : Option DateTime := do
  let (m, r1) ← parseMonth s.data
  let r2 ← expectLit [' '] r1
  let (d, r3) ← parseNum r2
  let r4 ← expectLit [',', ' '] r3
  let (y, r5) ← parseNum r4
  let r6 ← expectLit [' ', 'a', 't', ' '] r5
  let (h12, r7) ← parseNum r6
  let r8 ← expectLit [':'] r7
  let (mi, r9) ← parseNum r8
  let r10 ← expectLit [' '] r9
  let pm ← if r10 = ['A', 'M'] then some false
           else if r10 = ['P', 'M'] then some true
           else Option.none
  pure { year := y, month := m, day := d,
         hour := h12 % 12 + (if pm then 12 else 0),
         minute := mi, second := 0, offsetMin := Option.none }

/-! ### Arrival normalization (shared loop body of `MTABusSensor.update` and
`MTAData.update`) -/

/-- Attempt to parse a raw timestamp value: `fromisoformat` / `parser.parse`
raise on a non-string argument, which the surrounding `try` turns into `None`,
as does a parse failure. -/
def parseVal (p : String → Option DateTime) : PyVal → Option DateTime
  | .str s => p s
  | _ => Option.none

/-- One iteration of the visit loop: normalize one raw provider visit into an
arrival dict.  Returns the arrival together with the loop variables
`aimed_dt` and `expected_dt` left behind by this iteration. -/
def normalizeVisit (p : String → Option DateTime) (visit : PyVal) :
    Exc (PyVal × Option DateTime × Option DateTime) := do
  let journey ← visit.getD ("MonitoredVehicleJourney") (PyVal.dict [])
  let call ← journey.getD ("MonitoredCall") (PyVal.dict [])
  let extensions ← call.getD ("Extensions") (PyVal.dict [])
  let distances ← extensions.getD ("Distances") (PyVal.dict [])
  let capacities ← extensions.getD ("Capacities") (PyVal.dict [])
  let raw_aat ← call.getD ("AimedArrivalTime") PyVal.none
  let raw_eat ← call.getD ("ExpectedArrivalTime") PyVal.none
  let aimed_dt := if raw_aat.truthy then parseVal p raw_aat else Option.none
  let expected_dt := if raw_eat.truthy then parseVal p raw_eat else Option.none
  let aimed_formatted := match aimed_dt with
    | some dt => strftimeFmt dt
    | Option.none => ("Unavailable")
  let expected_formatted := match expected_dt with
    | some dt => strftimeFmt dt
    | Option.none => ("Unavailable")
  let route ← journey.getD ("PublishedLineName") PyVal.none
  let dest ← journey.getD ("DestinationName") PyVal.none
  let loc ← journey.getD ("VehicleLocation") PyVal.none
  let prog ← journey.getD ("ProgressRate") PyVal.none
  let pdist ← distances.getD ("PresentableDistance") PyVal.none
  let dfc ← distances.getD ("DistanceFromCall") PyVal.none
  let pcount ← capacities.getD ("EstimatedPassengerCount") PyVal.none
  let pcap ← capacities.getD ("EstimatedPassengerCapacity") PyVal.none
  let stopName ← call.getD ("StopPointName") PyVal.none
  let arrival := PyVal.dict
    [ (("Route"), route),
      (("Destination"), dest),
      (("Current Vehicle Location"), loc),
      (("Progress Rate"), prog),
      (("Aimed Arrival Time"), PyVal.str aimed_formatted),
      (("Estimated Arrival Time"), PyVal.str expected_formatted),
      (("Distance"), if pdist.truthy then pdist else PyVal.str ("Unavailable")),
      (("Distance (m)"), dfc),
      (("Passenger Count"), pcount),
      (("Passenger Capacity"), pcap),
      (("Stop Name"), stopName) ]
  pure (arrival, aimed_dt, expected_dt)

/-- The `for visit in visits` loop: appends one arrival per visit to `acc`
and threads the `aimed_dt` / `expected_dt` loop variables, whose final values
are the ones from the last iteration. -/
def loopVisits (p : String → Option DateTime) :
    List PyVal → List PyVal → Option DateTime → Option DateTime →
    Exc (List PyVal × Option DateTime × Option DateTime)
  | [], acc, a, e => .ok (acc, a, e)
  | v :: rest, acc, _, _ => do
    let (arr, a2, e2) ← normalizeVisit p v
    loopVisits p rest (acc ++ [arr]) a2 e2

/-- The arrival produced from one visit (ignoring the loop variables); only
meaningful when normalization succeeds. -/
def arrivalOf (p : String → Option DateTime) (v : PyVal) : PyVal :=
  match normalizeVisit p v with
  | .ok (a, _, _) => a
  | .error _ => PyVal.none

/-- `data.get("Siri", {}).get("ServiceDelivery", {}).get("StopMonitoringDelivery", [])`. -/
def getDelivery (data : PyVal) : Exc PyVal := do
  let siri ← data.getD ("Siri") (PyVal.dict [])
  let sd ← siri.getD ("ServiceDelivery") (PyVal.dict [])
  sd.getD ("StopMonitoringDelivery") (PyVal.list [])

/-- `delivery[0]` on a JSON value (raises unless a nonempty JSON array). -/
def indexZero (v : PyVal) : Exc PyVal :=
  match v with
  | .list (x :: _) => .ok x
  | _ => .error ()

/-- `delivery[0].get("MonitoredStopVisit", [])` as an iterable list of visits
(raises when the result is not a JSON array). -/
def getVisits (delivery : PyVal) : Exc (List PyVal) := do
  let first ← indexZero delivery
  let vs ← first.getD ("MonitoredStopVisit") (PyVal.list [])
  match vs with
  | .list l => .ok l
  | _ => .error ()

/-! ### ETA derivation -/

/-- Lines 131-136 of `MTABusSensor.update` (and 148-151 of
`MTABusStopSensor.extra_state_attributes`): the ETA string from the expected
datetime and `datetime.now(expected_dt.tzinfo)`. -/
def etaOf (expected : Option DateTime) (now : DateTime) : PyVal :=
  match expected with
  | Option.none => PyVal.str ("N/A")
  | some dt =>
    let minutes := Int.fdiv (pythonSub dt now) 60
    if 0 ≤ minutes then
      PyVal.str (("in ") ++ toString minutes ++ (" minutes"))
    else
      PyVal.str ("Departed")

/-! ### Single-target sensor (`sensor.py`, `MTABusSensor`) -/

/-- The `_state` / `_attributes` pair of a sensor. -/
structure SensorState where
  state : PyVal
  attrs : PyVal

/-- Outcome of `requests.get` plus `response.json()`: the call raised, or a
response with a status code and a JSON decoding result. -/
inductive FetchOutcome where
  | raised
  | response (status : Nat) (json : Exc PyVal)

/-- Body of `MTABusSensor.update` after a successful decode (lines 75-145):
computes the new state and attributes, or raises. -/
def updateBody (p : String → Option DateTime) (now : DateTime) (data : PyVal) :
    Exc SensorState := do
  let delivery ← getDelivery data
  if delivery.truthy then
    let visits ← getVisits delivery
    let (arrivals, _a, e) ← loopVisits p visits [] Option.none Option.none
    match arrivals with
    | [] =>
      pure { state := PyVal.str ("No arrivals"),
             attrs := PyVal.dict [(("Arrivals"), PyVal.list [])] }
    | first :: _ =>
      let st ← first.getD ("Estimated Arrival Time") PyVal.none
      pure { state := st,
             attrs := PyVal.dict
               [ (("Arrivals"), PyVal.list arrivals),
                 (("ETA in minutes"), etaOf e now) ] }
  else
    pure { state := PyVal.str ("No data"),
           attrs := PyVal.dict [(("Arrivals"), PyVal.list [])] }

/-- `MTABusSensor.update`: error paths set only `_state` to "Error", leaving
`_attributes` untouched; the success path replaces both. -/
def MTABusSensor_update (p : String → Option DateTime) (now : DateTime)
    (st : SensorState) (outcome : FetchOutcome) : SensorState :=
  match outcome with
  | .raised => { st with state := PyVal.str ("Error") }
  | .response code json =>
    if code ≠ 200 then { st with state := PyVal.str ("Error") }
    else
      match (do
        let d ← json
        updateBody p now d : Exc SensorState) with
      | .ok s2 => s2
      | .error _ => { st with state := PyVal.str ("Error") }

/-! ### Multi-target data cache
(`custom_components/mta_bus_time/sensor.py`) -/

/-- Per-departure body of `MTAData.update` after a successful decode
(lines 64-109): the arrivals list, or a raised exception. -/
def fetchArrivals (p : String → Option DateTime) (data : PyVal) :
    Exc (List PyVal) := do
  let delivery ← getDelivery data
  if delivery.truthy then
    let visits ← getVisits delivery
    let (arrivals, _, _) ← loopVisits p visits [] Option.none Option.none
    pure arrivals
  else
    pure []

/-- One departure's entry in `new_info`: transport errors, non-200 statuses
and any exception inside the `try` (including a JSON decode error) all
degrade to an empty list. -/
def fetchDeparture (p : String → Option DateTime) (outcome : FetchOutcome) :
    List PyVal :=
  match outcome with
  | .raised => []
  | .response code json =>
    if code ≠ 200 then []
    else
      match (do
        let d ← json
        fetchArrivals p d : Exc (List PyVal)) with
      | .ok l => l
      | .error _ => []

/-- The un-throttled body of `MTAData.update`: builds `new_info` with one
fetch per configured departure, in order. -/
def MTAData_update (p : String → Option DateTime) (deps : List String)
    (outs : String → FetchOutcome) : List (String × List PyVal) :=
  deps.map (fun d => (d, fetchDeparture p (outs d)))

/-- The shared cache: `MTAData.info` plus the throttle's last-execution time
(seconds). -/
structure MTADataState where
  info : List (String × List PyVal)
  lastUpdate : Option Int

/-- Modelled from the spec: the host platform's `Throttle` decorator
(`@Throttle(MIN_TIME_BETWEEN_UPDATES)` with a 60-second interval) is not part
of this repository; per §4.5 a call less than 60 seconds after the last
executed call is a no-op, otherwise the wrapped `MTAData.update` body runs,
replacing the whole mapping and the timestamp.  The second component counts
the underlying fetches performed (one per configured departure when the body
runs). -/
def throttledUpdate (p : String → Option DateTime) (deps : List String)
    (outs : String → FetchOutcome) (now : Int) (st : MTADataState) :
    MTADataState × Nat :=
  match st.lastUpdate with
  | some t =>
    if now - t < 60 then (st, 0)
    else ({ info := MTAData_update p deps outs, lastUpdate := some now },
          deps.length)
  | Option.none =>
    ({ info := MTAData_update p deps outs, lastUpdate := some now },
     deps.length)

/-- `self.data.info.get(self._dep_name, [])`. -/
def infoGet (info : List (String × List PyVal)) (name : String) : List PyVal :=
  (info.lookup name).getD []

/-- `MTABusStopSensor.state` (lines 129-135): the first arrival's estimated
time unless absent or "Unavailable". -/
def MTABusStopSensor_state (info : List (String × List PyVal))
    (name : String) : Exc PyVal :=
  match infoGet info name with
  | [] => .ok (PyVal.str ("No arrivals"))
  | a :: _ => do
    let v ← a.getD ("Estimated Arrival Time") PyVal.none
    if pyNeStr v ("Unavailable") then pure v
    else pure (PyVal.str ("No arrivals"))

/-- `MTABusStopSensor.extra_state_attributes` (lines 137-158): rebuilds the
attribute mapping on every read, re-deriving the ETA by re-parsing the first
arrival's formatted estimated time with `strptime`. -/
def MTABusStopSensor_attrs (info : List (String × List PyVal)) (name : String)
    (mref : PyVal) (now : DateTime) : Exc PyVal := do
  let arrivals := infoGet info name
  let eta ← match arrivals with
    | [] => pure (PyVal.str ("N/A"))
    | a :: _ => do
      let v ← a.getD ("Estimated Arrival Time") PyVal.none
      if pyNeStr v ("Unavailable") then
        match v with
        | .str s =>
          match strptimeFmt s with
          | some dt => pure (etaOf (some dt) now)
          | Option.none => pure (PyVal.str ("N/A"))
        | _ => pure (PyVal.str ("N/A"))
      else pure (PyVal.str ("N/A"))
  pure (PyVal.dict
    [ (("Arrivals"), PyVal.list arrivals),
      (("Monitoring Ref"), mref),
      (("ETA in minutes"), eta),
      (("Arrives"), eta) ])

/-! ### Characterization helpers (used to state and prove the claims; the
source translation above remains the authority) -/

/-- `l.get(k)` on a dict's pair list: the bound value or `None`. -/
def rawLookup (l : List (String × PyVal)) (k : String) : PyVal :=
  (l.lookup k).getD PyVal.none

/-- The parsed timestamp a visit's call record yields for field `k`. -/
def tsOf (p : String → Option DateTime) (lc : List (String × PyVal))
    (k : String) : Option DateTime :=
  if (rawLookup lc k).truthy then parseVal p (rawLookup lc k) else Option.none

/-- Formatted timestamp or the "Unavailable" sentinel. -/
def fmtOf (o : Option DateTime) : String :=
  match o with
  | some dt => strftimeFmt dt
  | Option.none => ("Unavailable")

/-- The arrival record a visit normalizes to, spelled out in terms of the
nested pair lists (journey, call, distances, capacities). -/
def arrivalFields (p : String → Option DateTime)
    (lj lc ld lcap : List (String × PyVal)) : PyVal :=
  PyVal.dict
    [ (("Route"), rawLookup lj ("PublishedLineName")),
      (("Destination"), rawLookup lj ("DestinationName")),
      (("Current Vehicle Location"), rawLookup lj ("VehicleLocation")),
      (("Progress Rate"), rawLookup lj ("ProgressRate")),
      (("Aimed Arrival Time"), PyVal.str (fmtOf (tsOf p lc ("AimedArrivalTime")))),
      (("Estimated Arrival Time"), PyVal.str (fmtOf (tsOf p lc ("ExpectedArrivalTime")))),
      (("Distance"), if (rawLookup ld ("PresentableDistance")).truthy
        then rawLookup ld ("PresentableDistance") else PyVal.str ("Unavailable")),
      (("Distance (m)"), rawLookup ld ("DistanceFromCall")),
      (("Passenger Count"), rawLookup lcap ("EstimatedPassengerCount")),
      (("Passenger Capacity"), rawLookup lcap ("EstimatedPassengerCapacity")),
      (("Stop Name"), rawLookup lc ("StopPointName")) ]

/-- The fixed key set of every produced arrival record. -/
def arrivalKeys : List String :=
  [("Route"), ("Destination"), ("Current Vehicle Location"),
   ("Progress Rate"), ("Aimed Arrival Time"), ("Estimated Arrival Time"),
   ("Distance"), ("Distance (m)"), ("Passenger Count"),
   ("Passenger Capacity"), ("Stop Name")]

/-- A response whose single delivery element is built from the given
delivery-array value (used to state claims about the consumed paths). -/
def mkSiri (delv : PyVal) : PyVal :=
  PyVal.dict
    [(("Siri"), PyVal.dict
      [(("ServiceDelivery"), PyVal.dict
        [(("StopMonitoringDelivery"), delv)])])]

/-! ### Concrete fixtures for witnesses and counterexamples -/

/-- Fixture instant: June 1, 2024, 14:05:00 at offset -04:00. -/
def dtE1 : DateTime :=
  { year := 2024, month := 6, day := 1, hour := 14, minute := 5,
    second := 0, offsetMin := some (-240) }

/-- Fixture instant: June 1, 2024, 14:20:00 at offset -04:00. -/
def dtE2 : DateTime :=
  { year := 2024, month := 6, day := 1, hour := 14, minute := 20,
    second := 0, offsetMin := some (-240) }

/-- Fixture "now": June 1, 2024, 14:00:00 at offset -04:00. -/
def nowFix : DateTime :=
  { year := 2024, month := 6, day := 1, hour := 14, minute := 0,
    second := 0, offsetMin := some (-240) }

/-- Fixture timestamp parser: maps the tag "E1" to `dtE1` (300 s after
`nowFix`) and "E2" to `dtE2` (1200 s after `nowFix`). -/
def parseFix : String → Option DateTime := fun s =>
  if s = ("E1") then some dtE1
  else if s = ("E2") then some dtE2
  else Option.none

/-- Fixture visit carrying only an `ExpectedArrivalTime` tag. -/
def visitE (tag : String) : PyVal :=
  PyVal.dict [(("MonitoredVehicleJourney"), PyVal.dict
    [(("MonitoredCall"), PyVal.dict [(("ExpectedArrivalTime"), PyVal.str tag)])])]

/-- Fixture delivery element holding the two tagged visits. -/
def deliv2 : PyVal :=
  PyVal.dict [(("MonitoredStopVisit"), PyVal.list [visitE ("E1"), visitE ("E2")])]

/-- Fixture decoded response body with the two tagged visits. -/
def dataTwo : PyVal := mkSiri (PyVal.list [deliv2])

/-- Fixture 200-response with two visits, expected at `dtE1` then `dtE2`. -/
def respTwoVisits : FetchOutcome :=
  FetchOutcome.response 200 (Except.ok dataTwo)

/-- The arrival record a `visitE tag` visit normalizes to. -/
def arrE (tag : String) : PyVal :=
  arrivalFields parseFix
    [(("MonitoredCall"), PyVal.dict [(("ExpectedArrivalTime"), PyVal.str tag)])]
    [(("ExpectedArrivalTime"), PyVal.str tag)] [] []

/-- Fixture timestamp parser that always fails. -/
def pNone : String → Option DateTime := fun _ => Option.none

/-- Fixture 200-response with a delivery element carrying zero visits. -/
def dataNoArr : PyVal :=
  mkSiri (PyVal.list [PyVal.dict [(("MonitoredStopVisit"), PyVal.list [])]])

/-- Fixture initial sensor state. -/
def st0 : SensorState :=
  { state := PyVal.none, attrs := PyVal.dict [] }

/-! ## Theorems -/



theorem digitVal_digitChar (d : Nat) (h : d < 10) : digitVal (digitChar d) = d := by
  interval_cases d <;> rfl

theorem isDigitCh_digitChar (d : Nat) (h : d < 10) : isDigitCh (digitChar d) = true := by
  interval_cases d <;> rfl

theorem printNatAux_eq (fuel : Nat) : ∀ n : Nat, n ≤ fuel →
    printNatAux fuel n = ((Nat.digits 10 n).reverse).map digitChar := by
  induction fuel with
  | zero =>
    intro n hn
    interval_cases n
    simp [printNatAux]
  | succ fuel ih =>
    intro n hn
    by_cases h0 : n = 0
    · subst h0; simp [printNatAux]
    · have hpos : 0 < n := Nat.pos_of_ne_zero h0
      have hdiv : n / 10 ≤ fuel := by
        have := Nat.div_lt_self hpos (by norm_num : 1 < 10)
        omega
      rw [printNatAux, if_neg h0, ih _ hdiv, Nat.digits_def' (by norm_num : 1 < 10) hpos]
      simp

theorem decodeDigits_append (l : List Char) (c : Char) :
    decodeDigits (l ++ [c]) = decodeDigits l * 10 + digitVal c := by
  simp [decodeDigits, List.foldl_append]

theorem decode_ofDigits (ds : List Nat) (h : ∀ d ∈ ds, d < 10) :
    decodeDigits ((ds.reverse).map digitChar) = Nat.ofDigits 10 ds := by
  induction ds with
  | nil => rfl
  | cons d rest ih =>
    rw [List.reverse_cons, List.map_append]
    simp only [List.map_cons, List.map_nil]
    rw [decodeDigits_append, ih (fun x hx => h x (List.mem_cons_of_mem d hx)),
      digitVal_digitChar d (h d (List.mem_cons_self d rest)), Nat.ofDigits_cons]
    ring

theorem decode_printNatChars (n : Nat) : decodeDigits (printNatChars n) = n := by
  rw [printNatChars, printNatAux_eq n n le_rfl,
    decode_ofDigits _ (fun d hd => Nat.digits_lt_base (by norm_num) hd),
    Nat.ofDigits_digits]

theorem printNatChars_allDigits (n : Nat) :
    ∀ c ∈ printNatChars n, isDigitCh c = true := by
  rw [printNatChars, printNatAux_eq n n le_rfl]
  intro c hc
  rw [List.mem_map] at hc
  obtain ⟨d, hd, rfl⟩ := hc
  exact isDigitCh_digitChar d (Nat.digits_lt_base (by norm_num) (List.mem_reverse.mp hd))

theorem printNatChars_ne_nil (n : Nat) (h : 0 < n) : printNatChars n ≠ [] := by
  rw [printNatChars, printNatAux_eq n n le_rfl]
  simp [Nat.digits_ne_nil_iff_ne_zero]
  omega

theorem pad2_allDigits (n : Nat) : ∀ c ∈ pad2Chars n, isDigitCh c = true := by
  rw [pad2Chars]
  split
  · intro c hc
    rcases List.mem_pair.mp hc with rfl | rfl
    · rfl
    · next h10 => exact isDigitCh_digitChar n (by omega)
  · exact printNatChars_allDigits n

theorem pad2_ne_nil (n : Nat) : pad2Chars n ≠ [] := by
  rw [pad2Chars]
  split
  · simp
  · exact printNatChars_ne_nil n (by omega)

theorem decode_pad2 (n : Nat) (_h : n < 100) : decodeDigits (pad2Chars n) = n := by
  rw [pad2Chars]
  split
  · next h10 =>
    show decodeDigits (['0'] ++ [digitChar n]) = n
    rw [decodeDigits_append]
    have h0 : decodeDigits ['0'] = 0 := rfl
    rw [h0, digitVal_digitChar n h10]
    omega
  · exact decode_printNatChars n

theorem splitDigits_append (ds rest : List Char)
    (hds : ∀ c ∈ ds, isDigitCh c = true) (hrest : headNonDigit rest = true) :
    splitDigits (ds ++ rest) = (ds, rest) := by
  induction ds with
  | nil =>
    cases rest with
    | nil => rfl
    | cons c t =>
      have hc : isDigitCh c = false := by
        simpa [headNonDigit] using hrest
      simp [splitDigits, List.takeWhile_cons, List.dropWhile_cons, hc]
  | cons c cs ih =>
    have hc : isDigitCh c = true := hds c (List.mem_cons_self c cs)
    have h2 := ih (fun x hx => hds x (List.mem_cons_of_mem c hx))
    simp only [splitDigits, Prod.mk.injEq] at h2
    simp [splitDigits, List.takeWhile_cons, List.dropWhile_cons, hc, h2.1, h2.2]

theorem parseNum_append (ds rest : List Char) (hne : ds ≠ [])
    (hds : ∀ c ∈ ds, isDigitCh c = true) (hrest : headNonDigit rest = true) :
    parseNum (ds ++ rest) = some (decodeDigits ds, rest) := by
  rw [parseNum, splitDigits_append ds rest hds hrest]
  simp [hne]

theorem expectLit_append (p rest : List Char) : expectLit p (p ++ rest) = some rest := by
  rw [expectLit, if_pos, List.drop_left]
  rw [List.isPrefixOf_iff_prefix]
  exact ⟨rest, rfl⟩

theorem parseMonth_month (m : Nat) (h1 : 1 ≤ m) (h2 : m ≤ 12) (rest : List Char) :
    parseMonth ((monthNamesChars.getD (m - 1) []) ++ rest) = some (m, rest) := by
  interval_cases m <;>
    simp [parseMonth, parseMonthAux, List.isPrefixOf, monthNamesChars]

theorem hourTo12_lt (h : Nat) : hourTo12 h < 100 := by
  rw [hourTo12]; split <;> omega

theorem hourTo12_mod (h : Nat) : hourTo12 h % 12 = h % 12 := by
  rw [hourTo12]; split <;> omega

/-- C6: formatting an instant with the "%B %d, %Y at %I:%M %p" pattern and
re-parsing the resulting string with the same pattern recovers the same
minute-level instant: every wall-clock field down to the minute (year, month,
day, hour, minute) of the original instant is recovered exactly (seconds and
timezone are not representable in the pattern and come back as zero / naive),
which is the format-then-reparse step the multi-target adapter performs on the
first arrival's estimated time. -/
theorem c6_format_roundtrip (dt : DateTime) (hm1 : 1 ≤ dt.month) (hm2 : dt.month ≤ 12)
    (hd1 : 1 ≤ dt.day) (hd2 : dt.day ≤ 31) (hy : 1 ≤ dt.year)
    (hh : dt.hour ≤ 23) (hmin : dt.minute ≤ 59) :
    strptimeFmt (strftimeFmt dt) =
      some { year := dt.year, month := dt.month, day := dt.day,
             hour := dt.hour, minute := dt.minute, second := 0,
             offsetMin := Option.none } := by
  have hchars : (strftimeFmt dt).data
      = (monthNamesChars.getD (dt.month - 1) [])
        ++ ([' '] ++ (pad2Chars dt.day ++ ([',', ' '] ++ (printNatChars dt.year
        ++ ([' ', 'a', 't', ' '] ++ (pad2Chars (hourTo12 dt.hour) ++ ([':']
        ++ (pad2Chars dt.minute ++ ([' '] ++ ampmChars dt.hour))))))))) := by
    show strftimeChars dt = _
    simp [strftimeChars, List.append_assoc]
  have hmonth := parseMonth_month dt.month hm1 hm2
  have hday := parseNum_append (pad2Chars dt.day)
    ([',', ' '] ++ (printNatChars dt.year
      ++ ([' ', 'a', 't', ' '] ++ (pad2Chars (hourTo12 dt.hour) ++ ([':']
      ++ (pad2Chars dt.minute ++ ([' '] ++ ampmChars dt.hour)))))))
    (pad2_ne_nil _) (pad2_allDigits _) rfl
  rw [decode_pad2 dt.day (by omega)] at hday
  have hyear := parseNum_append (printNatChars dt.year)
    ([' ', 'a', 't', ' '] ++ (pad2Chars (hourTo12 dt.hour) ++ ([':']
      ++ (pad2Chars dt.minute ++ ([' '] ++ ampmChars dt.hour)))))
    (printNatChars_ne_nil _ (by omega)) (printNatChars_allDigits _) rfl
  rw [decode_printNatChars dt.year] at hyear
  have hhour := parseNum_append (pad2Chars (hourTo12 dt.hour))
    ([':'] ++ (pad2Chars dt.minute ++ ([' '] ++ ampmChars dt.hour)))
    (pad2_ne_nil _) (pad2_allDigits _) rfl
  rw [decode_pad2 _ (hourTo12_lt dt.hour)] at hhour
  have hminute := parseNum_append (pad2Chars dt.minute)
    ([' '] ++ ampmChars dt.hour)
    (pad2_ne_nil _) (pad2_allDigits _) (by cases Nat.lt_or_ge dt.hour 12 <;> simp [ampmChars, headNonDigit, *] <;> rfl)
  rw [decode_pad2 dt.minute (by omega)] at hminute
  rw [strptimeFmt, hchars, hmonth]
  simp only [Option.bind_eq_bind', Option.some_bind]
  rw [expectLit_append]
  simp only [Option.some_bind]
  rw [hday]
  simp only [Option.some_bind]
  rw [expectLit_append]
  simp only [Option.some_bind]
  rw [hyear]
  simp only [Option.some_bind]
  rw [expectLit_append]
  simp only [Option.some_bind]
  rw [hhour]
  simp only [Option.some_bind]
  rw [expectLit_append]
  simp only [Option.some_bind]
  rw [hminute]
  simp only [Option.some_bind]
  rw [expectLit_append]
  simp only [Option.some_bind]
  rcases Nat.lt_or_ge dt.hour 12 with h12 | h12
  · simp [ampmChars, h12, Option.pure_def, DateTime.mk.injEq, hourTo12_mod]
    try omega
  · have h12n : ¬ dt.hour < 12 := by omega
    simp [ampmChars, h12n, Option.pure_def, DateTime.mk.injEq, hourTo12_mod]
    try omega

/-- Witness for C6 at a concrete instant (June 1, 2024, 14:05 in -04:00). -/
theorem c6_format_roundtrip_witness :
    strptimeFmt (strftimeFmt
      { year := 2024, month := 6, day := 1, hour := 14, minute := 5,
        second := 0, offsetMin := some (-240) }) =
      some { year := 2024, month := 6, day := 1, hour := 14, minute := 5,
             second := 0, offsetMin := Option.none } :=
  c6_format_roundtrip
    { year := 2024, month := 6, day := 1, hour := 14, minute := 5,
      second := 0, offsetMin := some (-240) }
    (by decide) (by decide) (by decide) (by decide) (by decide) (by decide)
    (by decide)


/-! ### Exception-monad and dict reduction helpers -/

theorem exc_bind_ok {α β : Type} (a : α) (f : α → Exc β) :
    (Except.ok a >>= f) = f a := rfl

theorem exc_bind_err {α β : Type} (f : α → Exc β) :
    ((Except.error () : Exc α) >>= f) = Except.error () := rfl

theorem exc_pure {α : Type} (a : α) : (pure a : Exc α) = Except.ok a := rfl

theorem getD_dict (l : List (String × PyVal)) (k : String) (d : PyVal) :
    PyVal.getD (PyVal.dict l) k d = Except.ok ((l.lookup k).getD d) := rfl

theorem bind_ok_iff {α β : Type} (x : Exc α) (f : α → Exc β) (b : β) :
    (x >>= f) = Except.ok b ↔ ∃ a, x = Except.ok a ∧ f a = Except.ok b := by
  cases x with
  | ok a => simp [show ∀ y, (Except.ok y >>= f) = f y from fun _ => rfl]
  | error e => simp [show (Except.error e >>= f) = Except.error e from rfl]

/-- Full characterization of the visit normalizer when every nested
sub-record position holds a dict (possibly the empty default). -/
theorem normalizeVisit_eq (p : String → Option DateTime)
    (lv lj lc le ld lcap : List (String × PyVal))
    (hj : (lv.lookup ("MonitoredVehicleJourney")).getD (PyVal.dict []) = PyVal.dict lj)
    (hc : (lj.lookup ("MonitoredCall")).getD (PyVal.dict []) = PyVal.dict lc)
    (he : (lc.lookup ("Extensions")).getD (PyVal.dict []) = PyVal.dict le)
    (hd : (le.lookup ("Distances")).getD (PyVal.dict []) = PyVal.dict ld)
    (hcap : (le.lookup ("Capacities")).getD (PyVal.dict []) = PyVal.dict lcap) :
    normalizeVisit p (PyVal.dict lv)
      = Except.ok (arrivalFields p lj lc ld lcap,
          tsOf p lc ("AimedArrivalTime"), tsOf p lc ("ExpectedArrivalTime")) := by
  simp only [normalizeVisit, getD_dict, exc_bind_ok, exc_pure, hj, hc, he, hd, hcap]
  rfl

/-- C9: every arrival record the Normalizer produces (for any visit, in
either variant — both variants share this normalization body) is a dict with
exactly the fixed key list `arrivalKeys`, in that order; missing data shows
up as sentinel values under those keys, never as an omitted key. -/
theorem c9_fixed_keys (p : String → Option DateTime) (v : PyVal)
    (a : PyVal) (aD eD : Option DateTime)
    (h : normalizeVisit p v = Except.ok (a, aD, eD)) :
    ∃ l, a = PyVal.dict l ∧ l.map Prod.fst = arrivalKeys := by
  cases v with
  | dict lv =>
    rcases hJ : (lv.lookup ("MonitoredVehicleJourney")).getD (PyVal.dict [])
      with _ | b | n | s | lst | lj
    all_goals try
      (rw [show normalizeVisit p (PyVal.dict lv) = Except.error () from by
        simp only [normalizeVisit, getD_dict, exc_bind_ok, hJ]; rfl] at h
       exact Except.noConfusion h)
    rcases hC : (lj.lookup ("MonitoredCall")).getD (PyVal.dict [])
      with _ | b | n | s | lst | lc
    all_goals try
      (rw [show normalizeVisit p (PyVal.dict lv) = Except.error () from by
        simp only [normalizeVisit, getD_dict, exc_bind_ok, hJ, hC]; rfl] at h
       exact Except.noConfusion h)
    rcases hE : (lc.lookup ("Extensions")).getD (PyVal.dict [])
      with _ | b | n | s | lst | le
    all_goals try
      (rw [show normalizeVisit p (PyVal.dict lv) = Except.error () from by
        simp only [normalizeVisit, getD_dict, exc_bind_ok, hJ, hC, hE]; rfl] at h
       exact Except.noConfusion h)
    rcases hD : (le.lookup ("Distances")).getD (PyVal.dict [])
      with _ | b | n | s | lst | ld
    all_goals try
      (rw [show normalizeVisit p (PyVal.dict lv) = Except.error () from by
        simp only [normalizeVisit, getD_dict, exc_bind_ok, hJ, hC, hE, hD]; rfl] at h
       exact Except.noConfusion h)
    rcases hCap : (le.lookup ("Capacities")).getD (PyVal.dict [])
      with _ | b | n | s | lst | lcap
    all_goals try
      (rw [show normalizeVisit p (PyVal.dict lv) = Except.error () from by
        simp only [normalizeVisit, getD_dict, exc_bind_ok, hJ, hC, hE, hD, hCap]; rfl] at h
       exact Except.noConfusion h)
    rw [normalizeVisit_eq p lv lj lc le ld lcap hJ hC hE hD hCap] at h
    simp only [Except.ok.injEq, Prod.mk.injEq] at h
    obtain ⟨ha, _, _⟩ := h
    subst ha
    exact ⟨_, rfl, rfl⟩
  | none => exact Except.noConfusion h
  | bool b => exact Except.noConfusion h
  | int n => exact Except.noConfusion h
  | str s => exact Except.noConfusion h
  | list l => exact Except.noConfusion h

/-- Witness for C9 on the empty visit. -/
theorem c9_fixed_keys_witness :
    ∃ l, arrivalFields pNone [] [] [] [] = PyVal.dict l
      ∧ l.map Prod.fst = arrivalKeys :=
  c9_fixed_keys pNone (PyVal.dict []) _ _ _ rfl

/-- The arrivals list the visit loop accumulates is exactly one normalized
record per visit, in visit order, appended to the accumulator. -/
theorem loopVisits_eq (p : String → Option DateTime) (vs : List PyVal) :
    ∀ acc a e out aF eF,
    loopVisits p vs acc a e = Except.ok (out, aF, eF) →
    out = acc ++ vs.map (arrivalOf p) := by
  induction vs with
  | nil =>
    intro acc a e out aF eF h
    simp only [loopVisits, Except.ok.injEq, Prod.mk.injEq] at h
    simp [h.1]
  | cons v rest ih =>
    intro acc a e out aF eF h
    simp only [loopVisits] at h
    rw [bind_ok_iff] at h
    obtain ⟨⟨arr, a2, e2⟩, h1, h2⟩ := h
    have h3 := ih (acc ++ [arr]) a2 e2 out aF eF h2
    have harr : arrivalOf p v = arr := by
      unfold arrivalOf
      rw [h1]
    rw [h3, List.map_cons, harr]
    simp

/-- C8: the fetcher reads the visit list only from the first element of
`StopMonitoringDelivery` — appending further delivery elements changes
neither the multi-target arrivals nor the single-target update — and a
successful loop yields exactly one arrival per visit, in provider order,
never reordered, filtered or truncated. -/
theorem c8_first_delivery_order (p : String → Option DateTime)
    (d0 : PyVal) (ds : List PyVal) :
    (fetchArrivals p (mkSiri (PyVal.list (d0 :: ds)))
      = fetchArrivals p (mkSiri (PyVal.list [d0])))
    ∧ (∀ now st, MTABusSensor_update p now st
          (FetchOutcome.response 200 (Except.ok (mkSiri (PyVal.list (d0 :: ds)))))
        = MTABusSensor_update p now st
          (FetchOutcome.response 200 (Except.ok (mkSiri (PyVal.list [d0])))))
    ∧ (∀ vs out aF eF,
        loopVisits p vs [] Option.none Option.none = Except.ok (out, aF, eF) →
        out = vs.map (arrivalOf p)) := by
  refine ⟨rfl, fun now st => rfl, fun vs out aF eF h => ?_⟩
  have := loopVisits_eq p vs [] Option.none Option.none out aF eF h
  simpa using this

/-- Witness for C8 on two empty visits. -/
theorem c8_first_delivery_order_witness :
    loopVisits pNone [PyVal.dict [], PyVal.dict []] [] Option.none Option.none
      = Except.ok ([arrivalFields pNone [] [] [] [],
                    arrivalFields pNone [] [] [] []],
          Option.none, Option.none)
    ∧ [arrivalFields pNone [] [] [] [], arrivalFields pNone [] [] [] []]
      = [PyVal.dict [], PyVal.dict []].map (arrivalOf pNone) := by
  have h : loopVisits pNone [PyVal.dict [], PyVal.dict []] [] Option.none Option.none
    = Except.ok ([arrivalFields pNone [] [] [] [],
                  arrivalFields pNone [] [] [] []],
        Option.none, Option.none) := rfl
  exact ⟨h, (c8_first_delivery_order pNone PyVal.none []).2.2
    [PyVal.dict [], PyVal.dict []] _ _ _ h⟩

/-- C3: a visit whose call record lacks `Extensions` entirely — and more
generally a visit missing the journey, call, or the distance/capacity
sub-records — normalizes without raising, to a record with
Distance = "Unavailable", Distance (m) = None, Passenger Count = None and
Passenger Capacity = None. -/
theorem c3_missing_nested (p : String → Option DateTime)
    (lv lj lc le : List (String × PyVal)) :
    ((lv.lookup ("MonitoredVehicleJourney") = some (PyVal.dict lj)) →
     (lj.lookup ("MonitoredCall") = some (PyVal.dict lc)) →
     (lc.lookup ("Extensions") = Option.none) →
     ∃ a aD eD, normalizeVisit p (PyVal.dict lv) = Except.ok (a, aD, eD)
       ∧ dictLookup a ("Distance") = some (PyVal.str ("Unavailable"))
       ∧ dictLookup a ("Distance (m)") = some PyVal.none
       ∧ dictLookup a ("Passenger Count") = some PyVal.none
       ∧ dictLookup a ("Passenger Capacity") = some PyVal.none)
    ∧ ((lv.lookup ("MonitoredVehicleJourney") = Option.none) →
     ∃ a aD eD, normalizeVisit p (PyVal.dict lv) = Except.ok (a, aD, eD)
       ∧ dictLookup a ("Distance") = some (PyVal.str ("Unavailable"))
       ∧ dictLookup a ("Distance (m)") = some PyVal.none
       ∧ dictLookup a ("Passenger Count") = some PyVal.none
       ∧ dictLookup a ("Passenger Capacity") = some PyVal.none)
    ∧ ((lv.lookup ("MonitoredVehicleJourney") = some (PyVal.dict lj)) →
     (lj.lookup ("MonitoredCall") = Option.none) →
     ∃ a aD eD, normalizeVisit p (PyVal.dict lv) = Except.ok (a, aD, eD)
       ∧ dictLookup a ("Distance") = some (PyVal.str ("Unavailable"))
       ∧ dictLookup a ("Distance (m)") = some PyVal.none
       ∧ dictLookup a ("Passenger Count") = some PyVal.none
       ∧ dictLookup a ("Passenger Capacity") = some PyVal.none)
    ∧ ((lv.lookup ("MonitoredVehicleJourney") = some (PyVal.dict lj)) →
     (lj.lookup ("MonitoredCall") = some (PyVal.dict lc)) →
     (lc.lookup ("Extensions") = some (PyVal.dict le)) →
     (le.lookup ("Distances") = Option.none) →
     (le.lookup ("Capacities") = Option.none) →
     ∃ a aD eD, normalizeVisit p (PyVal.dict lv) = Except.ok (a, aD, eD)
       ∧ dictLookup a ("Distance") = some (PyVal.str ("Unavailable"))
       ∧ dictLookup a ("Distance (m)") = some PyVal.none
       ∧ dictLookup a ("Passenger Count") = some PyVal.none
       ∧ dictLookup a ("Passenger Capacity") = some PyVal.none) := by
  refine ⟨?_, ?_, ?_, ?_⟩
  · intro h1 h2 h3
    exact ⟨_, _, _, normalizeVisit_eq p lv lj lc [] [] []
      (by rw [h1]; rfl) (by rw [h2]; rfl) (by rw [h3]; rfl) rfl rfl,
      rfl, rfl, rfl, rfl⟩
  · intro h1
    exact ⟨_, _, _, normalizeVisit_eq p lv [] [] [] [] []
      (by rw [h1]; rfl) rfl rfl rfl rfl,
      rfl, rfl, rfl, rfl⟩
  · intro h1 h2
    exact ⟨_, _, _, normalizeVisit_eq p lv lj [] [] [] []
      (by rw [h1]; rfl) (by rw [h2]; rfl) rfl rfl rfl,
      rfl, rfl, rfl, rfl⟩
  · intro h1 h2 h3 h4 h5
    exact ⟨_, _, _, normalizeVisit_eq p lv lj lc le [] []
      (by rw [h1]; rfl) (by rw [h2]; rfl) (by rw [h3]; rfl)
      (by rw [h4]; rfl) (by rw [h5]; rfl),
      rfl, rfl, rfl, rfl⟩

/-- Witness for C3 on a visit whose call record has no keys at all. -/
theorem c3_missing_nested_witness :
    ∃ a aD eD,
      normalizeVisit pNone
          (PyVal.dict [(("MonitoredVehicleJourney"),
             PyVal.dict [(("MonitoredCall"), PyVal.dict [])])])
        = Except.ok (a, aD, eD)
      ∧ dictLookup a ("Distance") = some (PyVal.str ("Unavailable"))
      ∧ dictLookup a ("Distance (m)") = some PyVal.none
      ∧ dictLookup a ("Passenger Count") = some PyVal.none
      ∧ dictLookup a ("Passenger Capacity") = some PyVal.none :=
  (c3_missing_nested pNone
      [(("MonitoredVehicleJourney"), PyVal.dict [(("MonitoredCall"), PyVal.dict [])])]
      [(("MonitoredCall"), PyVal.dict [])] [] []).1 rfl rfl rfl


/-- C1: the ETA string is derived from the expected/now delta exactly as
specified — minutes = floor(delta-seconds / 60); "in {minutes} minutes" when
minutes is nonnegative (a delta of 89 s gives "in 1 minutes"), "Departed"
when negative (a delta of -30 s floors to -1), and "N/A" when the parsed
estimated-arrival instant is absent. -/
theorem c1_eta_formula (est now : DateTime) (d : Int) :
    etaOf Option.none now = PyVal.str ("N/A")
    ∧ (pythonSub est now = d → 0 ≤ Int.fdiv d 60 →
        etaOf (some est) now
          = PyVal.str (("in ") ++ toString (Int.fdiv d 60) ++ (" minutes")))
    ∧ (pythonSub est now = d → Int.fdiv d 60 < 0 →
        etaOf (some est) now = PyVal.str ("Departed"))
    ∧ (pythonSub est now = 89 → etaOf (some est) now = PyVal.str ("in 1 minutes"))
    ∧ (pythonSub est now = -30 → etaOf (some est) now = PyVal.str ("Departed")) := by
  refine ⟨rfl, ?_, ?_, ?_, ?_⟩
  · intro h1 h2
    simp only [etaOf, h1]
    rw [if_pos h2]
  · intro h1 h2
    simp only [etaOf, h1]
    rw [if_neg (by omega)]
  · intro h1
    simp only [etaOf, h1]
    rfl
  · intro h1
    simp only [etaOf, h1]
    rfl

/-- Witness for C1 at deltas of 89 s, -30 s and an absent instant. -/
theorem c1_eta_formula_witness :
    etaOf (some { year := 2024, month := 6, day := 1, hour := 14, minute := 1,
                  second := 29, offsetMin := some (-240) }) nowFix
      = PyVal.str ("in 1 minutes")
    ∧ etaOf (some { year := 2024, month := 6, day := 1, hour := 13, minute := 59,
                    second := 30, offsetMin := some (-240) }) nowFix
      = PyVal.str ("Departed")
    ∧ etaOf Option.none nowFix = PyVal.str ("N/A") :=
  ⟨(c1_eta_formula
      { year := 2024, month := 6, day := 1, hour := 14, minute := 1,
        second := 29, offsetMin := some (-240) } nowFix 89).2.2.2.1 (by decide),
   (c1_eta_formula
      { year := 2024, month := 6, day := 1, hour := 13, minute := 59,
        second := 30, offsetMin := some (-240) } nowFix (-30)).2.2.2.2 (by decide),
   (c1_eta_formula nowFix nowFix 0).1⟩

/-! ### Single-target update characterizations -/

theorem updateBody_nodata (p : String → Option DateTime) (now : DateTime)
    (data dv : PyVal) (h1 : getDelivery data = Except.ok dv)
    (h2 : dv.truthy = false) :
    updateBody p now data = Except.ok
      { state := PyVal.str ("No data"),
        attrs := PyVal.dict [(("Arrivals"), PyVal.list [])] } := by
  simp only [updateBody, h1, exc_bind_ok, h2, Bool.false_eq_true, if_false, exc_pure]

theorem updateBody_noarrivals (p : String → Option DateTime) (now : DateTime)
    (data dv : PyVal) (h1 : getDelivery data = Except.ok dv)
    (h2 : dv.truthy = true) (h3 : getVisits dv = Except.ok []) :
    updateBody p now data = Except.ok
      { state := PyVal.str ("No arrivals"),
        attrs := PyVal.dict [(("Arrivals"), PyVal.list [])] } := by
  simp only [updateBody, h1, exc_bind_ok, h2, if_true, h3, exc_pure]
  rfl

theorem updateBody_arrivals (p : String → Option DateTime) (now : DateTime)
    (data dv : PyVal) (visits : List PyVal) (arr : PyVal) (arrs : List PyVal)
    (aD eD : Option DateTime) (ev : PyVal)
    (h1 : getDelivery data = Except.ok dv) (h2 : dv.truthy = true)
    (h3 : getVisits dv = Except.ok visits)
    (h4 : loopVisits p visits [] Option.none Option.none
            = Except.ok (arr :: arrs, aD, eD))
    (h5 : PyVal.getD arr ("Estimated Arrival Time") PyVal.none = Except.ok ev) :
    updateBody p now data = Except.ok
      { state := ev,
        attrs := PyVal.dict
          [ (("Arrivals"), PyVal.list (arr :: arrs)),
            (("ETA in minutes"), etaOf eD now) ] } := by
  simp only [updateBody, h1, exc_bind_ok, h2, if_true, h3, h4, h5, exc_pure]

theorem update_decode (p : String → Option DateTime) (now : DateTime)
    (st : SensorState) (data : PyVal) (s2 : SensorState)
    (h : updateBody p now data = Except.ok s2) :
    MTABusSensor_update p now st (FetchOutcome.response 200 (Except.ok data)) = s2 := by
  simp only [MTABusSensor_update]
  rw [if_neg (by omega : ¬ (200 : Nat) ≠ 200), exc_bind_ok, h]

/-- C4: the single-target state is the first arrival's formatted estimated
time on a non-empty visit list, "No arrivals" on an empty one, "No data" when
the delivery structure is absent or empty, and "Error" on a raised fetch or
any non-200 status (HTTP 500 included); in the multi-target cache path the
same HTTP 500 yields an empty arrivals entry and sensor state "No arrivals". -/
theorem c4_state_values (p : String → Option DateTime) (now : DateTime)
    (st : SensorState) (code : Nat) (j : Exc PyVal) (data dv : PyVal) :
    ((MTABusSensor_update p now st FetchOutcome.raised).state = PyVal.str ("Error"))
    ∧ (code ≠ 200 →
        (MTABusSensor_update p now st (FetchOutcome.response code j)).state
          = PyVal.str ("Error"))
    ∧ ((MTABusSensor_update p now st (FetchOutcome.response 500 j)).state
        = PyVal.str ("Error"))
    ∧ (getDelivery data = Except.ok dv → dv.truthy = false →
        (MTABusSensor_update p now st (FetchOutcome.response 200 (Except.ok data))).state
          = PyVal.str ("No data"))
    ∧ (getDelivery data = Except.ok dv → dv.truthy = true →
        getVisits dv = Except.ok [] →
        (MTABusSensor_update p now st (FetchOutcome.response 200 (Except.ok data))).state
          = PyVal.str ("No arrivals"))
    ∧ (∀ visits arr arrs aD eD ev,
        getDelivery data = Except.ok dv → dv.truthy = true →
        getVisits dv = Except.ok visits →
        loopVisits p visits [] Option.none Option.none
          = Except.ok (arr :: arrs, aD, eD) →
        PyVal.getD arr ("Estimated Arrival Time") PyVal.none = Except.ok ev →
        (MTABusSensor_update p now st (FetchOutcome.response 200 (Except.ok data))).state
          = ev)
    ∧ (fetchDeparture p (FetchOutcome.response 500 j) = [])
    ∧ (MTABusStopSensor_state
        [(("stop"), fetchDeparture p (FetchOutcome.response 500 j))] ("stop")
        = Except.ok (PyVal.str ("No arrivals"))) := by
  refine ⟨rfl, ?_, rfl, ?_, ?_, ?_, rfl, rfl⟩
  · intro hc
    simp only [MTABusSensor_update]
    rw [if_pos hc]
  · intro h1 h2
    rw [update_decode p now st data _ (updateBody_nodata p now data dv h1 h2)]
  · intro h1 h2 h3
    rw [update_decode p now st data _ (updateBody_noarrivals p now data dv h1 h2 h3)]
  · intro visits arr arrs aD eD ev h1 h2 h3 h4 h5
    rw [update_decode p now st data _
      (updateBody_arrivals p now data dv visits arr arrs aD eD ev h1 h2 h3 h4 h5)]

/-- Witness for C4 on concrete responses: HTTP 500, an empty decoded body,
a delivery with zero visits, and a delivery with two visits. -/
theorem c4_state_values_witness :
    (MTABusSensor_update parseFix nowFix st0
        (FetchOutcome.response 500 (Except.ok PyVal.none))).state = PyVal.str ("Error")
    ∧ (MTABusSensor_update parseFix nowFix st0
        (FetchOutcome.response 200 (Except.ok (PyVal.dict [])))).state
        = PyVal.str ("No data")
    ∧ (MTABusSensor_update parseFix nowFix st0
        (FetchOutcome.response 200 (Except.ok dataNoArr))).state
        = PyVal.str ("No arrivals")
    ∧ (MTABusSensor_update parseFix nowFix st0 respTwoVisits).state
        = PyVal.str (strftimeFmt dtE1) :=
  ⟨(c4_state_values parseFix nowFix st0 500 (Except.ok PyVal.none)
      PyVal.none PyVal.none).2.1 (by decide),
   (c4_state_values parseFix nowFix st0 0 (Except.error ())
      (PyVal.dict []) (PyVal.list [])).2.2.2.1 rfl rfl,
   (c4_state_values parseFix nowFix st0 0 (Except.error ())
      dataNoArr (PyVal.list [PyVal.dict [(("MonitoredStopVisit"),
        PyVal.list [])]])).2.2.2.2.1 rfl rfl rfl,
   (c4_state_values parseFix nowFix st0 0 (Except.error ())
      dataTwo (PyVal.list [deliv2])).2.2.2.2.2.1
     [visitE ("E1"), visitE ("E2")] (arrE ("E1")) [arrE ("E2")]
     Option.none (some dtE2) (PyVal.str (strftimeFmt dtE1))
     rfl rfl rfl rfl rfl⟩

/-- C10: every single-target error path (raised fetch, non-200 status,
decode failure, or a raise inside the decode body) sets only the state to
"Error" and leaves the attribute mapping untouched; attributes are replaced
only on the successful-decode path. -/
theorem c10_error_frame (p : String → Option DateTime) (now : DateTime)
    (st : SensorState) (code : Nat) (j : Exc PyVal) (data : PyVal) :
    ((MTABusSensor_update p now st FetchOutcome.raised).attrs = st.attrs
      ∧ (MTABusSensor_update p now st FetchOutcome.raised).state = PyVal.str ("Error"))
    ∧ (code ≠ 200 →
        (MTABusSensor_update p now st (FetchOutcome.response code j)).attrs = st.attrs
        ∧ (MTABusSensor_update p now st (FetchOutcome.response code j)).state
            = PyVal.str ("Error"))
    ∧ ((MTABusSensor_update p now st
          (FetchOutcome.response 200 (Except.error ()))).attrs = st.attrs
      ∧ (MTABusSensor_update p now st
          (FetchOutcome.response 200 (Except.error ()))).state = PyVal.str ("Error"))
    ∧ (updateBody p now data = Except.error () →
        (MTABusSensor_update p now st
          (FetchOutcome.response 200 (Except.ok data))).attrs = st.attrs
        ∧ (MTABusSensor_update p now st
          (FetchOutcome.response 200 (Except.ok data))).state = PyVal.str ("Error"))
    ∧ (∀ s2, updateBody p now data = Except.ok s2 →
        MTABusSensor_update p now st (FetchOutcome.response 200 (Except.ok data)) = s2) := by
  refine ⟨⟨rfl, rfl⟩, ?_, ⟨rfl, rfl⟩, ?_, ?_⟩
  · intro hc
    constructor <;>
      · simp only [MTABusSensor_update]
        rw [if_pos hc]
  · intro h
    constructor <;>
      · simp only [MTABusSensor_update]
        rw [if_neg (by omega : ¬ (200 : Nat) ≠ 200), exc_bind_ok, h]
  · intro s2 h
    exact update_decode p now st data s2 h

/-- Witness for C10 on a 404 response and a non-dict decoded body. -/
theorem c10_error_frame_witness :
    ((MTABusSensor_update parseFix nowFix st0
        (FetchOutcome.response 404 (Except.ok PyVal.none))).attrs = st0.attrs
      ∧ (MTABusSensor_update parseFix nowFix st0
        (FetchOutcome.response 404 (Except.ok PyVal.none))).state = PyVal.str ("Error"))
    ∧ ((MTABusSensor_update parseFix nowFix st0
        (FetchOutcome.response 200 (Except.ok (PyVal.str ("bad"))))).attrs = st0.attrs
      ∧ (MTABusSensor_update parseFix nowFix st0
        (FetchOutcome.response 200 (Except.ok (PyVal.str ("bad"))))).state
          = PyVal.str ("Error")) :=
  ⟨(c10_error_frame parseFix nowFix st0 404 (Except.ok PyVal.none)
      (PyVal.str ("bad"))).2.1 (by decide),
   (c10_error_frame parseFix nowFix st0 404 (Except.ok PyVal.none)
      (PyVal.str ("bad"))).2.2.2.1 rfl⟩

/-- C5 (spec-modelled throttle): after a refresh executed at `t1`, a call
less than 60 s later is a no-op — same mapping, same timestamp, zero
underlying fetches — while a call at least 60 s later performs exactly one
fetch per configured target (targets with previously failed fetches
included) and replaces the whole mapping and the timestamp; the new mapping
is exactly one fresh entry per configured target. -/
theorem c5_throttle (p : String → Option DateTime) (deps : List String)
    (outs1 outs2 outs3 : String → FetchOutcome) (t1 t2 t3 : Int)
    (info0 : List (String × List PyVal))
    (h12 : t2 - t1 < 60) (h13 : 60 ≤ t3 - t1) :
    (throttledUpdate p deps outs1 t1 { info := info0, lastUpdate := Option.none }
       = ({ info := MTAData_update p deps outs1, lastUpdate := some t1 }, deps.length))
    ∧ (throttledUpdate p deps outs2 t2
        { info := MTAData_update p deps outs1, lastUpdate := some t1 }
       = ({ info := MTAData_update p deps outs1, lastUpdate := some t1 }, 0))
    ∧ (throttledUpdate p deps outs3 t3
        { info := MTAData_update p deps outs1, lastUpdate := some t1 }
       = ({ info := MTAData_update p deps outs3, lastUpdate := some t3 }, deps.length))
    ∧ (MTAData_update p deps outs3
        = deps.map (fun d => (d, fetchDeparture p (outs3 d)))) := by
  refine ⟨rfl, ?_, ?_, rfl⟩
  · simp only [throttledUpdate]
    rw [if_pos h12]
  · simp only [throttledUpdate]
    rw [if_neg (by omega : ¬ t3 - t1 < 60)]

/-- Witness for C5: two targets, calls at t = 0, 30 and 60, the second
target's first two fetches failing. -/
theorem c5_throttle_witness :
    (throttledUpdate pNone [("a"), ("b")] (fun _ => FetchOutcome.raised) 0
        { info := [], lastUpdate := Option.none }
       = ({ info := MTAData_update pNone [("a"), ("b")] (fun _ => FetchOutcome.raised),
            lastUpdate := some 0 }, 2))
    ∧ (throttledUpdate pNone [("a"), ("b")]
        (fun _ => FetchOutcome.response 500 (Except.error ())) 30
        { info := MTAData_update pNone [("a"), ("b")] (fun _ => FetchOutcome.raised),
          lastUpdate := some 0 }
       = ({ info := MTAData_update pNone [("a"), ("b")] (fun _ => FetchOutcome.raised),
            lastUpdate := some 0 }, 0))
    ∧ (throttledUpdate pNone [("a"), ("b")]
        (fun _ => FetchOutcome.response 404 (Except.ok PyVal.none)) 60
        { info := MTAData_update pNone [("a"), ("b")] (fun _ => FetchOutcome.raised),
          lastUpdate := some 0 }
       = ({ info := MTAData_update pNone [("a"), ("b")]
              (fun _ => FetchOutcome.response 404 (Except.ok PyVal.none)),
            lastUpdate := some 60 }, 2))
    ∧ (MTAData_update pNone [("a"), ("b")]
        (fun _ => FetchOutcome.response 404 (Except.ok PyVal.none))
       = [("a"), ("b")].map (fun d => (d, fetchDeparture pNone
           (FetchOutcome.response 404 (Except.ok PyVal.none))))) := by
  have h := c5_throttle pNone [("a"), ("b")] (fun _ => FetchOutcome.raised)
    (fun _ => FetchOutcome.response 500 (Except.error ()))
    (fun _ => FetchOutcome.response 404 (Except.ok PyVal.none))
    0 30 60 [] (by decide) (by decide)
  exact ⟨h.1, h.2.1, h.2.2.1, h.2.2.2⟩

/-- C7 counterexample: a decode error in the multi-target fetcher does NOT
become an "Error" state — the per-target handler catches it, the target's
arrivals entry is empty, and the sensor state reads "No arrivals". -/
theorem c7_decode_counterexample :
    MTABusStopSensor_state (MTAData_update pNone [("stop")]
        (fun _ => FetchOutcome.response 200 (Except.error ()))) ("stop")
      = Except.ok (PyVal.str ("No arrivals"))
    ∧ MTABusStopSensor_state (MTAData_update pNone [("stop")]
        (fun _ => FetchOutcome.response 200 (Except.error ()))) ("stop")
      ≠ Except.ok (PyVal.str ("Error")) := by
  refine ⟨rfl, ?_⟩
  intro h
  rw [show MTABusStopSensor_state (MTAData_update pNone [("stop")]
      (fun _ => FetchOutcome.response 200 (Except.error ()))) ("stop")
    = Except.ok (PyVal.str ("No arrivals")) from rfl] at h
  injection h with h2
  injection h2 with h3
  exact absurd h3 (by decide)

/-- C7 (amended): a decode error in the multi-target fetcher is caught by
the per-target handler and degrades to an empty arrivals entry (sensor state
"No arrivals", like a transport error); in the single-target variant a
malformed JSON body raises and is caught by the outer handler as state
"Error" (like a transport error), while an unexpected-but-decoded shape
degrades via the defensive nested-lookup defaults to an empty arrivals list
with state "No data". -/
theorem c7_decode_amended (p : String → Option DateTime) (now : DateTime)
    (st : SensorState) :
    (fetchDeparture p (FetchOutcome.response 200 (Except.error ())) = [])
    ∧ (MTABusStopSensor_state
        [(("stop"), fetchDeparture p (FetchOutcome.response 200 (Except.error ())))]
        ("stop") = Except.ok (PyVal.str ("No arrivals")))
    ∧ ((MTABusSensor_update p now st
        (FetchOutcome.response 200 (Except.error ()))).state = PyVal.str ("Error"))
    ∧ ((MTABusSensor_update p now st
        (FetchOutcome.response 200 (Except.ok (PyVal.dict [])))).state
        = PyVal.str ("No data"))
    ∧ ((MTABusSensor_update p now st
        (FetchOutcome.response 200 (Except.ok (PyVal.dict [])))).attrs
        = PyVal.dict [(("Arrivals"), PyVal.list [])]) :=
  ⟨rfl, rfl, rfl, rfl, rfl⟩

/-- C2 (code bug in the single-target variant): with two visits whose
expected times differ (the first 300 s away, the second 1200 s away),
`update()` computes the "ETA in minutes" attribute from the LAST visit's
parsed `expected_dt` — the loop variable that leaks out of the visit loop —
yielding "in 20 minutes", not the first arrival's "in 5 minutes", even
though the state is the first arrival's formatted time and the code's own
comments say the ETA is computed "for the first arrival". -/
theorem c2_eta_from_last_visit :
    dictLookup (MTABusSensor_update parseFix nowFix st0 respTwoVisits).attrs
      ("ETA in minutes") = some (PyVal.str ("in 20 minutes"))
    ∧ dictLookup (MTABusSensor_update parseFix nowFix st0 respTwoVisits).attrs
      ("ETA in minutes") ≠ some (PyVal.str ("in 5 minutes"))
    ∧ etaOf (parseFix ("E1")) nowFix = PyVal.str ("in 5 minutes")
    ∧ (MTABusSensor_update parseFix nowFix st0 respTwoVisits).state
      = PyVal.str (strftimeFmt dtE1) := by
  refine ⟨rfl, ?_, rfl, rfl⟩
  intro h
  rw [show dictLookup (MTABusSensor_update parseFix nowFix st0 respTwoVisits).attrs
      ("ETA in minutes") = some (PyVal.str ("in 20 minutes")) from rfl] at h
  injection h with h2
  injection h2 with h3
  exact absurd h3 (by decide)

end MTABus
